import Mathlib

/-!
Verification of the struct scaffolding generator in src/MyDeclImpl/structs.rs
(the Rust declarative transformers struct_default and struct_new).

The embedding models one declaration as the capture groups the transformer
arms bind, and models each transformer as a function from a batch of
declarations to an optional list of emitted artifacts: a failed arm match is
a compile-time failure, so the whole expansion yields none.

The three arms of each transformer are modelled in order:
  1. the unit arm, matching exactly a whole input of the form
     vis struct Name; (no attributes, generics, parameters, where clauses
     or body, and no trailing declarations);
  2. the body arm, matching a head declaration carrying a field block in
     which every field has a default expression, emitting a struct
     definition plus a constructor, then recursing on the tail;
  3. the empty arm, matching an empty input.

Generated constructors are given semantics by runCtor, parameterized by an
evaluator for the opaque default expressions, which are never evaluated at
generation time.
-/

/-- A runtime value produced by evaluating an emitted expression at call
time: enough to cover the scenarios of the documentation (u8 literals and
string slices). -/
inductive Value where
  | natV : Nat → Value
  | strV : String → Value
deriving DecidableEq, Repr

/-- One field capture of the body arm: visibility, name, type tokens, and
the optional default expression tokens. A missing default makes the
declaration malformed for both transformers. -/
structure RawField where
  fvis : String
  fname : String
  fty : String
  fval : Option String
deriving DecidableEq, Repr

/-- One parameter capture of the struct_new body arm: the visibility of the
resulting field, its name and its type tokens. -/
structure ParamSpec where
  pvis : String
  pname : String
  pty : String
deriving DecidableEq, Repr

/-- One declaration of a batch, as the capture groups of the transformer
arms: attribute tokens, visibility tokens, name, generic tokens, an
optional parenthesized parameter list, where-clause pairs, and an optional
field block (none models the unit form with a trailing semicolon). -/
structure Decl where
  attrs : List String
  vis : String
  name : String
  generics : List String
  params : Option (List ParamSpec)
  wheres : List (String × String)
  body : Option (List RawField)
deriving DecidableEq, Repr

/-- One field of an emitted struct definition, with the default annotation
stripped. -/
structure FieldDef where
  dvis : String
  dname : String
  dty : String
deriving DecidableEq, Repr

/-- An emitted struct definition: attributes, visibility, name, generics,
where clauses, fields, and whether it is a unit struct (bare semicolon
body). -/
structure StructDef where
  sattrs : List String
  svis : String
  sname : String
  sgenerics : List String
  swheres : List (String × String)
  sfields : List FieldDef
  unitBody : Bool
deriving DecidableEq, Repr

/-- One field initializer in an emitted constructor body: either the
shorthand form naming a parameter, or an explicit field with its relocated
default expression. -/
inductive Assign where
  | fromParam : String → Assign
  | fromExpr : String → String → Assign
deriving DecidableEq, Repr

/-- The field name an initializer assigns. -/
def assignName : Assign → String
  | Assign.fromParam n => n
  | Assign.fromExpr n _ => n

/-- An emitted constructor function: its visibility tokens (empty when the
source emits a bare fn), conventional name, generics and where clauses of
its impl block, parameter list, and ordered body initializers. -/
structure CtorFn where
  cvis : String
  cname : String
  cgenerics : List String
  cwheres : List (String × String)
  cparams : List (String × String)
  cassigns : List Assign
deriving DecidableEq, Repr

/-- One emitted output unit: a struct definition or a constructor
function. -/
inductive Artifact where
  | structDef : StructDef → Artifact
  | fnDef : CtorFn → Artifact
deriving DecidableEq, Repr

/-- Option-valued map over a list: the whole result is none as soon as one
element fails, mirroring a failed arm match aborting the expansion. -/
def mapOpt (f : α → Option β) : List α → Option (List β)
  | [] => some []
  | a :: l =>
    match f a, mapOpt f l with
    | some b, some bs => some (b :: bs)
    | _, _ => none

/-- Whether a declaration matches the unit arm pattern
vis struct Name; — no attributes, generics, parameters, where clauses or
body. -/
def isBareUnit (d : Decl) : Bool :=
  d.attrs.isEmpty && d.generics.isEmpty && d.params.isNone &&
    d.wheres.isEmpty && d.body.isNone

/-- The struct definition the unit arm emits: the visibility and name are
relocated verbatim, nothing else is attached. -/
def unitArtifact (d : Decl) : Artifact :=
  Artifact.structDef ⟨[], d.vis, d.name, [], [], [], true⟩

/-- Matching one field against the body arm pattern field: type = val —
the default expression must be present; its tokens are split from the
stripped field. -/
def splitDefault (f : RawField) : Option (FieldDef × String) :=
  match f.fval with
  | some e => some (⟨f.fvis, f.fname, f.fty⟩, e)
  | none => none

/-- Matching a whole field block: every field must carry a default. -/
def matchBody (fs : List RawField) : Option (List (FieldDef × String)) :=
  mapOpt splitDefault fs

/-- Head match of the struct_default body arm. Its pattern has no
parameter list and no where clause, so a declaration carrying either
fails. On success it emits the struct definition (attributes, visibility,
name, generics, stripped fields) and the zero-argument default constructor
(generics relocated to its impl block, each field initialized from its
default expression, in order). -/
def defaultHead (d : Decl) : Option (StructDef × CtorFn) :=
  match d.params, d.wheres, d.body with
  | none, [], some fs =>
    (matchBody fs).map fun fds =>
      (⟨d.attrs, d.vis, d.name, d.generics, [], fds.map Prod.fst, false⟩,
       ⟨"", "default", d.generics, [], [],
        fds.map fun fd => Assign.fromExpr fd.1.dname fd.2⟩)
  | _, _, _ => none

/-- Head match of the struct_new body arm. Parameters and where clauses
are optional. On success it emits the struct definition whose fields are
the parameter-backed fields followed by the stripped default fields, and
the new constructor taking the parameter list, whose body initializes the
parameter-backed fields by shorthand and the rest from their defaults.
The emitted fn carries no visibility tokens. -/
def newHead (d : Decl) : Option (StructDef × CtorFn) :=
  match d.body with
  | some fs =>
    (matchBody fs).map fun fds =>
      let ps := d.params.getD []
      (⟨d.attrs, d.vis, d.name, d.generics, d.wheres,
        ps.map (fun p => ⟨p.pvis, p.pname, p.pty⟩) ++ fds.map Prod.fst, false⟩,
       ⟨"", "new", d.generics, d.wheres,
        ps.map (fun p => (p.pname, p.pty)),
        ps.map (fun p => Assign.fromParam p.pname) ++
          fds.map fun fd => Assign.fromExpr fd.1.dname fd.2⟩)
  | none => none

/-- Expansion of the struct_default transformer over a batch. Arm order
matches the source: the unit arm consumes the entire remaining input, the
body arm processes the head and recurses on the tail, the empty arm ends
the recursion. Any failed match aborts the whole expansion. -/
def struct_default : List Decl → Option (List Artifact)
  | [] => some []
  | d :: ds =>
    if ds.isEmpty && isBareUnit d then
      some [unitArtifact d]
    else
      match defaultHead d, struct_default ds with
      | some (sd, c), some rest =>
        some (Artifact.structDef sd :: Artifact.fnDef c :: rest)
      | _, _ => none

/-- Expansion of the struct_new transformer over a batch, with the same
arm order and abort behavior as struct_default. -/
def struct_new : List Decl → Option (List Artifact)
  | [] => some []
  | d :: ds =>
    if ds.isEmpty && isBareUnit d then
      some [unitArtifact d]
    else
      match newHead d, struct_new ds with
      | some (sd, c), some rest =>
        some (Artifact.structDef sd :: Artifact.fnDef c :: rest)
      | _, _ => none

/-- Name resolution among the bound constructor parameters: first binding
of the name wins. -/
def lookupVal (n : String) : List (String × Value) → Option Value
  | [] => none
  | (k, v) :: rest => if k = n then some v else lookupVal n rest

/-- Call-time semantics of an emitted constructor: the arguments are bound
positionally to the parameter names, each shorthand initializer resolves
its parameter name, and each explicit initializer evaluates its relocated
default expression with the supplied evaluator. The result is the built
instance as an ordered field-name/value association. -/
def runCtor (eval : String → Value) (c : CtorFn) (args : List Value) :
    Option (List (String × Value)) :=
  if args.length = c.cparams.length then
    let env := (c.cparams.map Prod.fst).zip args
    mapOpt
      (fun a =>
        match a with
        | Assign.fromParam n => (lookupVal n env).map fun v => (n, v)
        | Assign.fromExpr n e => some (n, eval e))
      c.cassigns
  else none

/-- The names of the struct definitions among emitted artifacts, in
emission order. -/
def structNames (arts : List Artifact) : List String :=
  arts.filterMap fun a =>
    match a with
    | Artifact.structDef sd => some sd.sname
    | Artifact.fnDef _ => none

/-- The number of constructor functions among emitted artifacts. -/
def fnCount (arts : List Artifact) : Nat :=
  (arts.filter fun a =>
    match a with
    | Artifact.structDef _ => false
    | Artifact.fnDef _ => true).length

/-- A declaration is malformed when its field block contains a field
without a default expression. -/
def malformed (d : Decl) : Bool :=
  match d.body with
  | some fs => fs.any fun f => f.fval.isNone
  | none => false

/-! ### Concrete declarations from the documented scenarios -/

/-- Evaluator assigning the documented scenario expressions their Rust
call-time values; unknown expressions evaluate to a dummy value. -/
def docEval : String → Value := fun e =>
  if e = "233" then Value.natV 233
  else if e = "\"abc\"" then Value.strV "abc"
  else if e = "\"bar\"" then Value.strV "bar"
  else if e = "1" then Value.natV 1
  else Value.natV 0

/-- Fields of the struct_default scenario: foo: u8 = 233 and
bar: &str = "abc". -/
def fieldsA : List RawField :=
  [⟨"", "foo", "u8", some "233"⟩, ⟨"", "bar", "&str", some "\"abc\""⟩]

/-- The struct_default scenario declaration struct A with foo and bar. -/
def declA : Decl := ⟨[], "", "A", [], none, [], some fieldsA⟩

/-- The split fields of the scenario declaration. -/
def fdsA : List (FieldDef × String) :=
  [(⟨"", "foo", "u8"⟩, "233"), (⟨"", "bar", "&str"⟩, "\"abc\"")]

/-- The struct definition emitted for the scenario declaration. -/
def sdA : StructDef :=
  ⟨[], "", "A", [], [], [⟨"", "foo", "u8"⟩, ⟨"", "bar", "&str"⟩], false⟩

/-- The default constructor emitted for the scenario declaration. -/
def ctorA : CtorFn :=
  ⟨"", "default", [], [], [],
   [Assign.fromExpr "foo" "233", Assign.fromExpr "bar" "\"abc\""]⟩

/-- The struct_new scenario declaration struct A(foo: T) with
bar: &str = "bar". -/
def declN : Decl :=
  ⟨[], "", "A", ["T"], some [⟨"", "foo", "T"⟩], [],
   some [⟨"", "bar", "&str", some "\"bar\""⟩]⟩

/-- The split fields of the struct_new scenario declaration. -/
def fdsN : List (FieldDef × String) := [(⟨"", "bar", "&str"⟩, "\"bar\"")]

/-- The struct definition emitted for the struct_new scenario. -/
def sdN : StructDef :=
  ⟨[], "", "A", ["T"], [], [⟨"", "foo", "T"⟩, ⟨"", "bar", "&str"⟩], false⟩

/-- The new constructor emitted for the struct_new scenario. -/
def ctorN : CtorFn :=
  ⟨"", "new", ["T"], [], [("foo", "T")],
   [Assign.fromParam "foo", Assign.fromExpr "bar" "\"bar\""]⟩

/-- A unit-shaped declaration named StructA. -/
def declUnitA : Decl := ⟨[], "", "StructA", [], none, [], none⟩

/-- A defaults-bearing declaration named StructB with one field. -/
def declDefB : Decl :=
  ⟨[], "", "StructB", [], none, [], some [⟨"", "x", "u8", some "1"⟩]⟩

/-- A parameterized declaration named StructC with one parameter and no
default fields. -/
def declParC : Decl :=
  ⟨[], "", "StructC", [], some [⟨"", "p", "T"⟩], [], some []⟩

/-- The unit-shaped declaration struct C; of the documentation examples. -/
def declUnitC : Decl := ⟨[], "", "C", [], none, [], none⟩

/-- A defaults-bearing declaration carrying a where clause. -/
def declWhere : Decl :=
  ⟨[], "", "W", ["T"], none, [("T", "Copy")],
   some [⟨"", "x", "u8", some "1"⟩]⟩

/-- The struct definition struct_new emits for declWhere. -/
def sdWhere : StructDef :=
  ⟨[], "", "W", ["T"], [("T", "Copy")], [⟨"", "x", "u8"⟩], false⟩

/-- The constructor struct_new emits for declWhere. -/
def ctorWhere : CtorFn :=
  ⟨"", "new", ["T"], [("T", "Copy")], [], [Assign.fromExpr "x" "1"]⟩

/-- A public declaration processed by struct_new. -/
def declPub : Decl :=
  ⟨[], "pub", "P", [], none, [], some [⟨"", "x", "u8", some "1"⟩]⟩

/-- The struct definition struct_new emits for declPub. -/
def sdPub : StructDef := ⟨[], "pub", "P", [], [], [⟨"", "x", "u8"⟩], false⟩

/-- The constructor struct_new emits for declPub: its visibility tokens
are empty because the source emits a bare fn. -/
def ctorPub : CtorFn := ⟨"", "new", [], [], [], [Assign.fromExpr "x" "1"]⟩

/-- A malformed defaults-bearing declaration: its field lacks a default
expression. -/
def declBad : Decl := ⟨[], "", "Bad", [], none, [], some [⟨"", "x", "u8", none⟩]⟩

/-- The struct_new scenario declaration with an explicitly empty parameter
list over the same fields as declA. -/
def declEmptyParams : Decl := ⟨[], "", "A", [], some [], [], some fieldsA⟩

/-- A pass-through declaration: parameters only, no default fields. -/
def declPassThru : Decl :=
  ⟨[], "", "PT", [], some [⟨"", "p", "u8"⟩, ⟨"", "q", "&str"⟩], [], some []⟩

/-- The empty defaults-bearing declaration struct B of the documentation
examples. -/
def declEmptyB : Decl := ⟨[], "", "B", [], none, [], some []⟩

/-- The constructor struct_new emits for declEmptyParams: no parameters,
every field filled from its default, under the conventional name new. -/
def ctorANew : CtorFn :=
  ⟨"", "new", [], [], [],
   [Assign.fromExpr "foo" "233", Assign.fromExpr "bar" "\"abc\""]⟩

/-- The struct definition struct_new emits for declPassThru. -/
def sdPT : StructDef :=
  ⟨[], "", "PT", [], [], [⟨"", "p", "u8"⟩, ⟨"", "q", "&str"⟩], false⟩

/-- The constructor struct_new emits for declPassThru: a pure
pass-through from its two parameters. -/
def ctorPT : CtorFn :=
  ⟨"", "new", [], [], [("p", "u8"), ("q", "&str")],
   [Assign.fromParam "p", Assign.fromParam "q"]⟩

/-! ### Helper lemmas about mapOpt and matchBody -/

lemma mapOpt_some (g : α → β) (l : List α) :
    mapOpt (fun a => some (g a)) l = some (l.map g) := by
  induction l with
  | nil => rfl
  | cons a l ih => simp [mapOpt, ih]

lemma mapOpt_map (f : β → Option γ) (g : α → β) (l : List α) :
    mapOpt f (l.map g) = mapOpt (fun a => f (g a)) l := by
  induction l with
  | nil => rfl
  | cons a l ih => simp [mapOpt, ih]

lemma mapOpt_congr {f g : α → Option β} {l : List α}
    (h : ∀ a ∈ l, f a = g a) : mapOpt f l = mapOpt g l := by
  induction l with
  | nil => rfl
  | cons a l ih =>
    simp only [mapOpt]
    rw [h a (List.mem_cons_self a l), ih fun b hb => h b (List.mem_cons_of_mem a hb)]

lemma mapOpt_append (f : α → Option β) (l₁ l₂ : List α) :
    mapOpt f (l₁ ++ l₂) =
      (mapOpt f l₁).bind fun b₁ => (mapOpt f l₂).map fun b₂ => b₁ ++ b₂ := by
  induction l₁ with
  | nil =>
    simp only [List.nil_append, mapOpt, Option.some_bind]
    cases mapOpt f l₂ <;> rfl
  | cons a l ih =>
    show (match f a, mapOpt f (l ++ l₂) with
          | some b, some bs => some (b :: bs)
          | _, _ => none) =
        (match f a, mapOpt f l with
          | some b, some bs => some (b :: bs)
          | _, _ => none).bind fun b₁ => (mapOpt f l₂).map fun b₂ => b₁ ++ b₂
    rw [ih]
    cases f a <;> cases mapOpt f l <;> cases mapOpt f l₂ <;> rfl

lemma matchBody_spec : ∀ {fs : List RawField} {fds : List (FieldDef × String)},
    matchBody fs = some fds →
    fds.map (fun fd => fd.1.dname) = fs.map RawField.fname ∧
    fds.map (fun fd => (some fd.2 : Option String)) = fs.map RawField.fval := by
  intro fs
  induction fs with
  | nil =>
    intro fds h
    simp only [matchBody, mapOpt, Option.some.injEq] at h
    subst h
    simp
  | cons f fs ih =>
    intro fds h
    simp only [matchBody, mapOpt] at h
    cases hf : splitDefault f with
    | none => rw [hf] at h; simp at h
    | some fde =>
      rw [hf] at h
      cases hrest : mapOpt splitDefault fs with
      | none => rw [hrest] at h; simp at h
      | some rest =>
        rw [hrest] at h
        simp only [Option.some.injEq] at h
        subst h
        obtain ⟨h1, h2⟩ := ih hrest
        cases f with
        | mk v n t val =>
          cases val with
          | none => simp [splitDefault] at hf
          | some e =>
            simp only [splitDefault, Option.some.injEq] at hf
            subst hf
            simp [h1, h2]

/-! ### Inversion of the head matches -/

lemma defaultHead_eq {d : Decl} {sd : StructDef} {c : CtorFn}
    (h : defaultHead d = some (sd, c)) :
    ∃ fs fds, d.params = none ∧ d.wheres = [] ∧ d.body = some fs ∧
      matchBody fs = some fds ∧
      sd = ⟨d.attrs, d.vis, d.name, d.generics, [], fds.map Prod.fst, false⟩ ∧
      c = ⟨"", "default", d.generics, [], [],
        fds.map fun fd => Assign.fromExpr fd.1.dname fd.2⟩ := by
  obtain ⟨attrs, vis, name, gens, params, wheres, body⟩ := d
  cases params with
  | some _ => simp [defaultHead] at h
  | none =>
    cases wheres with
    | cons _ _ => simp [defaultHead] at h
    | nil =>
      cases body with
      | none => simp [defaultHead] at h
      | some fs =>
        cases hm : matchBody fs with
        | none => simp [defaultHead, hm] at h
        | some fds =>
          simp only [defaultHead, hm, Option.map_some', Option.some.injEq,
            Prod.mk.injEq] at h
          exact ⟨fs, fds, rfl, rfl, rfl, hm, h.1.symm, h.2.symm⟩

lemma newHead_eq {d : Decl} {sd : StructDef} {c : CtorFn}
    (h : newHead d = some (sd, c)) :
    ∃ fs fds, d.body = some fs ∧ matchBody fs = some fds ∧
      sd = ⟨d.attrs, d.vis, d.name, d.generics, d.wheres,
        (d.params.getD []).map (fun p => ⟨p.pvis, p.pname, p.pty⟩) ++
          fds.map Prod.fst, false⟩ ∧
      c = ⟨"", "new", d.generics, d.wheres,
        (d.params.getD []).map (fun p => (p.pname, p.pty)),
        (d.params.getD []).map (fun p => Assign.fromParam p.pname) ++
          fds.map fun fd => Assign.fromExpr fd.1.dname fd.2⟩ := by
  obtain ⟨attrs, vis, name, gens, params, wheres, body⟩ := d
  cases body with
  | none => simp [newHead] at h
  | some fs =>
    cases hm : matchBody fs with
    | none => simp [newHead, hm] at h
    | some fds =>
      simp only [newHead, hm, Option.map_some', Option.some.injEq,
        Prod.mk.injEq] at h
      exact ⟨fs, fds, rfl, hm, h.1.symm, h.2.symm⟩

/-! ### Semantics of emitted constructors -/

lemma runCtor_no_params (eval : String → Value) (cn : String)
    (gens : List String) (whs : List (String × String))
    (fds : List (FieldDef × String)) :
    runCtor eval ⟨"", cn, gens, whs, [],
        fds.map fun fd => Assign.fromExpr fd.1.dname fd.2⟩ [] =
      some (fds.map fun fd => (fd.1.dname, eval fd.2)) := by
  unfold runCtor
  simp only [List.length_nil, if_pos rfl, List.map_nil, List.zip_nil_left]
  rw [mapOpt_map]
  exact mapOpt_some _ fds

lemma mapOpt_lookup_zip :
    ∀ (l : List String) (args : List Value), l.Nodup → args.length = l.length →
      mapOpt (fun n => (lookupVal n (l.zip args)).map fun v => (n, v)) l =
        some (l.zip args) := by
  intro l
  induction l with
  | nil => intro args _ _; rfl
  | cons n l ih =>
    intro args hnd hlen
    cases args with
    | nil => simp at hlen
    | cons a as =>
      have hlen' : as.length = l.length := by simpa using hlen
      obtain ⟨hnmem, hnd'⟩ := List.nodup_cons.mp hnd
      simp only [List.zip_cons_cons, mapOpt]
      have hhd : lookupVal n ((n, a) :: l.zip as) = some a := by
        simp [lookupVal]
      rw [hhd]
      have htl :
          mapOpt (fun m => (lookupVal m ((n, a) :: l.zip as)).map fun v => (m, v)) l =
            mapOpt (fun m => (lookupVal m (l.zip as)).map fun v => (m, v)) l := by
        refine mapOpt_congr fun m hm => ?_
        have hne : n ≠ m := fun he => hnmem (he ▸ hm)
        simp [lookupVal, hne]
      rw [htl, ih as hnd' hlen']
      rfl

lemma runCtor_params_and_defaults (eval : String → Value) (cn : String)
    (gens : List String) (whs : List (String × String))
    (ps : List ParamSpec) (fds : List (FieldDef × String)) (args : List Value)
    (hlen : args.length = ps.length)
    (hnd : (ps.map ParamSpec.pname).Nodup) :
    runCtor eval ⟨"", cn, gens, whs,
        ps.map (fun p => (p.pname, p.pty)),
        ps.map (fun p => Assign.fromParam p.pname) ++
          fds.map fun fd => Assign.fromExpr fd.1.dname fd.2⟩ args =
      some ((ps.map ParamSpec.pname).zip args ++
        fds.map fun fd => (fd.1.dname, eval fd.2)) := by
  unfold runCtor
  have hlen2 : args.length = (ps.map fun p => (p.pname, p.pty)).length := by
    simpa using hlen
  rw [if_pos hlen2]
  have hfst : (ps.map fun p => (p.pname, p.pty)).map Prod.fst =
      ps.map ParamSpec.pname := by
    simp [List.map_map]
  rw [hfst, mapOpt_append]
  have hpart1 :
      mapOpt
        (fun a =>
          match a with
          | Assign.fromParam n =>
            (lookupVal n ((ps.map ParamSpec.pname).zip args)).map fun v => (n, v)
          | Assign.fromExpr n e => some (n, eval e))
        (ps.map fun p => Assign.fromParam p.pname) =
        some ((ps.map ParamSpec.pname).zip args) := by
    rw [mapOpt_map]
    have := mapOpt_lookup_zip (ps.map ParamSpec.pname) args hnd (by simpa using hlen)
    rw [mapOpt_map] at this
    exact this
  have hpart2 :
      mapOpt
        (fun a =>
          match a with
          | Assign.fromParam n =>
            (lookupVal n ((ps.map ParamSpec.pname).zip args)).map fun v => (n, v)
          | Assign.fromExpr n e => some (n, eval e))
        (fds.map fun fd => Assign.fromExpr fd.1.dname fd.2) =
        some (fds.map fun fd => (fd.1.dname, eval fd.2)) := by
    rw [mapOpt_map]
    exact mapOpt_some _ fds
  rw [hpart1, hpart2]
  rfl

/-! ### Claim C1 -/

/-- C1: for every FieldsWithDefaults declaration accepted by
struct_default, the generated zero-argument constructor returns an
instance in which each field equals the evaluated value of that field's
declared default expression — the built instance lists, in declared
order, exactly the declared field names paired with the evaluated
defaults. -/
theorem struct_default_ctor_evaluates_defaults (eval : String → Value)
    (d : Decl) (sd : StructDef) (c : CtorFn) (fs : List RawField)
    (fds : List (FieldDef × String))
    (hb : d.body = some fs) (hm : matchBody fs = some fds)
    (hd : defaultHead d = some (sd, c)) :
    runCtor eval c [] = some (fds.map fun fd => (fd.1.dname, eval fd.2)) ∧
    fds.map (fun fd => fd.1.dname) = fs.map RawField.fname ∧
    fds.map (fun fd => (some fd.2 : Option String)) = fs.map RawField.fval := by
  obtain ⟨fs', fds', _, _, hb', hm', _, hc⟩ := defaultHead_eq hd
  rw [hb] at hb'
  injection hb' with hb'
  subst hb'
  rw [hm] at hm'
  injection hm' with hm'
  subst hm'
  subst hc
  exact ⟨runCtor_no_params eval "default" d.generics [] fds,
    (matchBody_spec hm).1, (matchBody_spec hm).2⟩

/-- Witness for C1 at the documented scenario: the constructor generated
for struct A with foo: u8 = 233 and bar: &str = "abc" builds the instance
foo = 233, bar = "abc". -/
theorem struct_default_ctor_evaluates_defaults_witness :
    runCtor docEval ctorA [] =
        some [("foo", Value.natV 233), ("bar", Value.strV "abc")] ∧
    (["foo", "bar"] : List String) = fieldsA.map RawField.fname ∧
    ([some "233", some "\"abc\""] : List (Option String)) =
      fieldsA.map RawField.fval :=
  struct_default_ctor_evaluates_defaults docEval declA sdA ctorA fieldsA fdsA
    rfl rfl rfl

/-! ### Claim C2 -/

/-- C2: for every ParamsAndFields declaration accepted by struct_new, the
generated constructor called with arguments a1..an builds an instance
whose parameter-backed fields receive a1..an positionally, in parameter
order, followed by the default-backed fields paired with their evaluated
default expressions, in declared order. -/
theorem struct_new_ctor_params_then_defaults (eval : String → Value)
    (d : Decl) (sd : StructDef) (c : CtorFn) (fs : List RawField)
    (fds : List (FieldDef × String)) (args : List Value)
    (hb : d.body = some fs) (hm : matchBody fs = some fds)
    (hd : newHead d = some (sd, c))
    (hlen : args.length = (d.params.getD []).length)
    (hnd : ((d.params.getD []).map ParamSpec.pname).Nodup) :
    runCtor eval c args =
      some ((((d.params.getD []).map ParamSpec.pname).zip args) ++
        fds.map fun fd => (fd.1.dname, eval fd.2)) ∧
    fds.map (fun fd => fd.1.dname) = fs.map RawField.fname ∧
    fds.map (fun fd => (some fd.2 : Option String)) = fs.map RawField.fval := by
  obtain ⟨fs', fds', hb', hm', _, hc⟩ := newHead_eq hd
  rw [hb] at hb'
  injection hb' with hb'
  subst hb'
  rw [hm] at hm'
  injection hm' with hm'
  subst hm'
  subst hc
  exact ⟨runCtor_params_and_defaults eval "new" d.generics d.wheres
      (d.params.getD []) fds args hlen hnd,
    (matchBody_spec hm).1, (matchBody_spec hm).2⟩

/-- Witness for C2 at the documented scenario: the constructor generated
for struct A(foo: T) with bar: &str = "bar", called with foo = "foo",
builds the instance foo = "foo", bar = "bar". -/
theorem struct_new_ctor_params_then_defaults_witness :
    runCtor docEval ctorN [Value.strV "foo"] =
        some [("foo", Value.strV "foo"), ("bar", Value.strV "bar")] ∧
    (["bar"] : List String) =
      [(⟨"", "bar", "&str", some "\"bar\""⟩ : RawField)].map RawField.fname ∧
    ([some "\"bar\""] : List (Option String)) =
      [(⟨"", "bar", "&str", some "\"bar\""⟩ : RawField)].map RawField.fval :=
  struct_new_ctor_params_then_defaults docEval declN sdN ctorN
    [⟨"", "bar", "&str", some "\"bar\""⟩] fdsN [Value.strV "foo"]
    rfl rfl rfl rfl (by decide)

/-! ### Claim C3 -/

/-- C3: in both pipelines, the emitted struct definition lists the
parameter-backed fields (in parameter order) before the default-backed
fields (in declared order), and the generated constructor body assigns
the fields in exactly that order; for struct_default the parameter part
is empty. -/
theorem struct_field_order (d : Decl) (sd : StructDef) (c : CtorFn)
    (fs : List RawField) (hb : d.body = some fs)
    (hd : newHead d = some (sd, c) ∨ defaultHead d = some (sd, c)) :
    sd.sfields.map FieldDef.dname =
      (d.params.getD []).map ParamSpec.pname ++ fs.map RawField.fname ∧
    c.cassigns.map assignName =
      (d.params.getD []).map ParamSpec.pname ++ fs.map RawField.fname := by
  rcases hd with hd | hd
  · obtain ⟨fs', fds, hb', hm, hsd, hc⟩ := newHead_eq hd
    rw [hb] at hb'
    injection hb' with hb'
    subst hb'
    have h1 := (matchBody_spec hm).1
    subst hsd
    subst hc
    constructor
    · simp only [List.map_append, List.map_map]
      rw [← h1]
      rfl
    · simp only [List.map_append, List.map_map]
      rw [← h1]
      rfl
  · obtain ⟨fs', fds, hp, _, hb', hm, hsd, hc⟩ := defaultHead_eq hd
    rw [hb] at hb'
    injection hb' with hb'
    subst hb'
    have h1 := (matchBody_spec hm).1
    subst hsd
    subst hc
    rw [hp]
    constructor
    · simp only [List.map_map, Option.getD_none, List.map_nil, List.nil_append]
      rw [← h1]
      rfl
    · simp only [List.map_map, Option.getD_none, List.map_nil, List.nil_append]
      rw [← h1]
      rfl

/-- Witness for C3 at the struct_new scenario declaration: foo (the
parameter-backed field) precedes bar (the default-backed field) in both
the struct definition and the constructor body. -/
theorem struct_field_order_witness :
    sdN.sfields.map FieldDef.dname = ["foo", "bar"] ∧
    ctorN.cassigns.map assignName = ["foo", "bar"] :=
  struct_field_order declN sdN ctorN
    [⟨"", "bar", "&str", some "\"bar\""⟩] rfl (Or.inl rfl)

/-! ### Claim C4 -/

lemma bareUnit_heads_none {d : Decl} (h : isBareUnit d = true) :
    newHead d = none ∧ defaultHead d = none := by
  obtain ⟨attrs, vis, name, gens, params, wheres, body⟩ := d
  simp only [isBareUnit, Bool.and_eq_true, Option.isNone_iff_eq_none] at h
  obtain ⟨⟨⟨⟨-, -⟩, hp⟩, hw⟩, hb⟩ := h
  subst hp
  subst hb
  have hw2 : wheres = [] := by
    cases wheres with
    | nil => rfl
    | cons _ _ => simp [List.isEmpty] at hw
  subst hw2
  exact ⟨rfl, rfl⟩

lemma struct_new_names {ds : List Decl} {arts : List Artifact}
    (h : struct_new ds = some arts) : structNames arts = ds.map Decl.name := by
  induction ds generalizing arts with
  | nil =>
    simp only [struct_new, Option.some.injEq] at h
    subst h
    rfl
  | cons d tl ih =>
    unfold struct_new at h
    by_cases hbu : (tl.isEmpty && isBareUnit d) = true
    · rw [if_pos hbu] at h
      injection h with h
      subst h
      cases tl with
      | nil => rfl
      | cons t ts => simp [List.isEmpty] at hbu
    · rw [if_neg hbu] at h
      cases hnh : newHead d with
      | none =>
        rw [hnh] at h
        exact absurd h (by simp)
      | some sc =>
        obtain ⟨sd, c⟩ := sc
        rw [hnh] at h
        cases hrest : struct_new tl with
        | none =>
          rw [hrest] at h
          exact absurd h (by simp)
        | some rest =>
          rw [hrest] at h
          injection h with h
          subst h
          obtain ⟨fs, fds, _, _, hsd, _⟩ := newHead_eq hnh
          subst hsd
          have htl := ih hrest
          simp only [structNames, List.filterMap_cons, List.map_cons] at htl ⊢
          rw [htl]

lemma struct_default_names {ds : List Decl} {arts : List Artifact}
    (h : struct_default ds = some arts) :
    structNames arts = ds.map Decl.name := by
  induction ds generalizing arts with
  | nil =>
    simp only [struct_default, Option.some.injEq] at h
    subst h
    rfl
  | cons d tl ih =>
    unfold struct_default at h
    by_cases hbu : (tl.isEmpty && isBareUnit d) = true
    · rw [if_pos hbu] at h
      injection h with h
      subst h
      cases tl with
      | nil => rfl
      | cons t ts => simp [List.isEmpty] at hbu
    · rw [if_neg hbu] at h
      cases hnh : defaultHead d with
      | none =>
        rw [hnh] at h
        exact absurd h (by simp)
      | some sc =>
        obtain ⟨sd, c⟩ := sc
        rw [hnh] at h
        cases hrest : struct_default tl with
        | none =>
          rw [hrest] at h
          exact absurd h (by simp)
        | some rest =>
          rw [hrest] at h
          injection h with h
          subst h
          obtain ⟨fs, fds, _, _, _, _, hsd, _⟩ := defaultHead_eq hnh
          subst hsd
          have htl := ih hrest
          simp only [structNames, List.filterMap_cons, List.map_cons] at htl ⊢
          rw [htl]

/-- C4 (amended): a successful expansion of either transformer emits
exactly one struct definition per declaration, in batch order; but a
unit-shaped declaration is only accepted in the final position — a unit
head followed by further declarations makes the whole batch fail, because
the unit arm must consume the entire input. -/
theorem batch_structs_in_order (ds : List Decl) :
    (∀ arts, struct_new ds = some arts →
      structNames arts = ds.map Decl.name) ∧
    (∀ arts, struct_default ds = some arts →
      structNames arts = ds.map Decl.name) ∧
    (∀ d tl, ds = d :: tl → tl ≠ [] → isBareUnit d = true →
      struct_new ds = none ∧ struct_default ds = none) := by
  refine ⟨fun arts h => struct_new_names h,
    fun arts h => struct_default_names h, ?_⟩
  intro d tl hds htl hbu
  subst hds
  obtain ⟨hnh, hdh⟩ := bareUnit_heads_none hbu
  have hempty : tl.isEmpty = false := by
    cases tl with
    | nil => exact absurd rfl htl
    | cons _ _ => rfl
  constructor
  · unfold struct_new
    rw [hempty, Bool.false_and, if_neg (by simp), hnh]
  · unfold struct_default
    rw [hempty, Bool.false_and, if_neg (by simp), hdh]

/-- Witness for C4 (amended): the mixed batch defaults/params/unit, with
the unit declaration last, emits three struct definitions in batch
order. -/
theorem batch_structs_in_order_witness :
    structNames ((struct_new [declDefB, declParC, declUnitA]).getD []) =
      ["StructB", "StructC", "StructA"] :=
  (batch_structs_in_order [declDefB, declParC, declUnitA]).1
    ((struct_new [declDefB, declParC, declUnitA]).getD []) rfl

/-- Counterexample for C4 as stated: the documented mixed batch headed by
the unit-shaped declaration is rejected whole by both transformers — the
unit arm accepts no trailing declarations, so no output is produced. -/
theorem unit_head_batch_rejected :
    struct_new [declUnitA, declDefB, declParC] = none ∧
    struct_default [declUnitA, declDefB] = none := by decide

/-! ### Claim C5 -/

/-- C5 (amended): generic parameters propagate identically to the emitted
struct definition and to the generated constructor in both pipelines;
where clauses are supported only by struct_new, where they propagate
identically to both artifacts — the struct_default grammar has no where
clause, so a declaration it accepts carries none. -/
theorem generics_wheres_propagation (d : Decl) (sd : StructDef) (c : CtorFn) :
    (newHead d = some (sd, c) →
      sd.sgenerics = d.generics ∧ c.cgenerics = d.generics ∧
      sd.swheres = d.wheres ∧ c.cwheres = d.wheres) ∧
    (defaultHead d = some (sd, c) →
      d.wheres = [] ∧ sd.sgenerics = d.generics ∧ c.cgenerics = d.generics) := by
  constructor
  · intro hd
    obtain ⟨fs, fds, _, _, hsd, hc⟩ := newHead_eq hd
    subst hsd
    subst hc
    exact ⟨rfl, rfl, rfl, rfl⟩
  · intro hd
    obtain ⟨fs, fds, _, hw, _, _, hsd, hc⟩ := defaultHead_eq hd
    subst hsd
    subst hc
    exact ⟨hw, rfl, rfl⟩

/-- Witness for C5 (amended): for the where-carrying declaration W, the
struct_new artifacts both carry generics T and the where clause
T: Copy. -/
theorem generics_wheres_propagation_witness :
    sdWhere.sgenerics = ["T"] ∧ ctorWhere.cgenerics = ["T"] ∧
    sdWhere.swheres = [("T", "Copy")] ∧ ctorWhere.cwheres = [("T", "Copy")] :=
  (generics_wheres_propagation declWhere sdWhere ctorWhere).1 rfl

/-- Counterexample for C5 as stated: the declaration W carrying a where
clause is accepted by struct_new but rejected outright by struct_default,
whose grammar has no where clause — so where clauses do not hold in both
pipelines. -/
theorem struct_default_rejects_where :
    struct_default [declWhere] = none ∧
    struct_new [declWhere] =
      some [Artifact.structDef sdWhere, Artifact.fnDef ctorWhere] := by
  decide

/-! ### Claim C6 -/

/-- C6 (amended): the declaration's visibility is propagated verbatim to
the emitted struct definition, but the generated constructor function
carries no visibility qualifier at all — both pipelines emit a bare fn
(struct_new an inherent private fn new, struct_default a trait-impl fn
default). -/
theorem visibility_propagation (d : Decl) (sd : StructDef) (c : CtorFn) :
    (newHead d = some (sd, c) → sd.svis = d.vis ∧ c.cvis = "") ∧
    (defaultHead d = some (sd, c) → sd.svis = d.vis ∧ c.cvis = "") := by
  constructor
  · intro hd
    obtain ⟨fs, fds, _, _, hsd, hc⟩ := newHead_eq hd
    subst hsd
    subst hc
    exact ⟨rfl, rfl⟩
  · intro hd
    obtain ⟨fs, fds, _, _, _, _, hsd, hc⟩ := defaultHead_eq hd
    subst hsd
    subst hc
    exact ⟨rfl, rfl⟩

/-- Witness for C6 (amended): for pub struct P, the emitted struct
definition is pub and the emitted fn new carries no visibility tokens. -/
theorem visibility_propagation_witness :
    sdPub.svis = "pub" ∧ ctorPub.cvis = "" :=
  (visibility_propagation declPub sdPub ctorPub).1 rfl

/-- Counterexample for C6 as stated: for pub struct P, struct_new emits
fn new without the pub qualifier, so the visibility is not propagated to
every emitted artifact. -/
theorem ctor_vis_not_propagated :
    newHead declPub = some (sdPub, ctorPub) ∧
    sdPub.svis = declPub.vis ∧ ¬ ctorPub.cvis = declPub.vis := by decide

/-! ### Claim C7 -/

/-- C7: a unit-shaped declaration, accepted by either transformer, emits
exactly the bare struct definition and zero constructor functions. -/
theorem unit_decl_emits_struct_only (d : Decl) (h : isBareUnit d = true) :
    struct_default [d] = some [unitArtifact d] ∧
    struct_new [d] = some [unitArtifact d] ∧
    fnCount [unitArtifact d] = 0 := by
  refine ⟨?_, ?_, rfl⟩
  · unfold struct_default
    rw [if_pos (by simp [h])]
  · unfold struct_new
    rw [if_pos (by simp [h])]

/-- Witness for C7 at the documented declaration struct C; — the output
is the bare unit struct and no function. -/
theorem unit_decl_emits_struct_only_witness :
    struct_default [declUnitC] =
        some [Artifact.structDef ⟨[], "", "C", [], [], [], true⟩] ∧
    struct_new [declUnitC] =
        some [Artifact.structDef ⟨[], "", "C", [], [], [], true⟩] ∧
    fnCount [Artifact.structDef ⟨[], "", "C", [], [], [], true⟩] = 0 :=
  unit_decl_emits_struct_only declUnitC rfl

/-! ### Claim C8 -/

lemma matchBody_none_of_missing {fs : List RawField}
    (h : (fs.any fun f => f.fval.isNone) = true) : matchBody fs = none := by
  induction fs with
  | nil => simp at h
  | cons f fs ih =>
    simp only [List.any_cons, Bool.or_eq_true] at h
    simp only [matchBody, mapOpt]
    rcases h with h | h
    · have : splitDefault f = none := by
        cases hv : f.fval with
        | none => simp [splitDefault, hv]
        | some e => rw [hv] at h; simp at h
      rw [this]
    · rw [show mapOpt splitDefault fs = none from ih h]
      cases splitDefault f <;> rfl

lemma malformed_heads_none {d : Decl} (h : malformed d = true) :
    defaultHead d = none ∧ newHead d = none ∧ isBareUnit d = false := by
  obtain ⟨attrs, vis, name, gens, params, wheres, body⟩ := d
  cases body with
  | none => simp [malformed] at h
  | some fs =>
    have hm : matchBody fs = none :=
      matchBody_none_of_missing (by simpa [malformed] using h)
    refine ⟨?_, ?_, ?_⟩
    · cases params with
      | some _ => rfl
      | none =>
        cases wheres with
        | cons _ _ => rfl
        | nil => simp [defaultHead, hm]
    · simp [newHead, hm]
    · simp [isBareUnit]

/-- C8: a batch containing a malformed declaration — one with a field
missing its default expression — produces no output at all from either
transformer: the whole expansion fails, including the declarations
preceding the offending one. -/
theorem malformed_batch_aborts (ds : List Decl) (d : Decl)
    (hmem : d ∈ ds) (hm : malformed d = true) :
    struct_default ds = none ∧ struct_new ds = none := by
  induction ds with
  | nil => cases hmem
  | cons d0 tl ih =>
    obtain ⟨hdh, hnh, hbu⟩ := malformed_heads_none hm
    rcases List.mem_cons.mp hmem with h0 | hmem'
    · subst h0
      constructor
      · unfold struct_default
        rw [if_neg (by simp [hbu]), hdh]
      · unfold struct_new
        rw [if_neg (by simp [hbu]), hnh]
    · have htlne : tl.isEmpty = false := by
        cases tl with
        | nil => cases hmem'
        | cons _ _ => rfl
      obtain ⟨ihd, ihn⟩ := ih hmem'
      constructor
      · unfold struct_default
        rw [if_neg (by simp [htlne]), ihd]
        cases defaultHead d0 with
        | none => rfl
        | some sc => obtain ⟨sd, c⟩ := sc; rfl
      · unfold struct_new
        rw [if_neg (by simp [htlne]), ihn]
        cases newHead d0 with
        | none => rfl
        | some sc => obtain ⟨sd, c⟩ := sc; rfl

/-- Witness for C8: a batch whose well-formed declaration StructB
precedes the malformed declaration Bad yields no output from either
transformer. -/
theorem malformed_batch_aborts_witness :
    struct_default [declDefB, declBad] = none ∧
    struct_new [declDefB, declBad] = none :=
  malformed_batch_aborts [declDefB, declBad] declBad (by decide) (by decide)

/-! ### Claim C9 -/

/-- C9: a struct_new declaration with an empty parameter list degenerates
to a constructor that takes no arguments and builds the same instance as
the struct_default constructor over the same fields, differing only in
its conventional name; and one with an empty default-field list
degenerates to a pure pass-through assigning each argument to its
matching parameter-backed field. -/
theorem degenerate_ctors (eval : String → Value) (d dd : Decl)
    (sd : StructDef) (c : CtorFn) (sdd : StructDef) (cd : CtorFn) :
    (newHead d = some (sd, c) → defaultHead dd = some (sdd, cd) →
      d.body = dd.body → d.params.getD [] = [] →
      c.cparams = [] ∧ c.cname = "new" ∧ cd.cname = "default" ∧
      runCtor eval c [] = runCtor eval cd []) ∧
    (newHead d = some (sd, c) → d.body = some [] →
      ∀ args, args.length = (d.params.getD []).length →
        ((d.params.getD []).map ParamSpec.pname).Nodup →
        runCtor eval c args =
          some (((d.params.getD []).map ParamSpec.pname).zip args)) := by
  constructor
  · intro hn hd hbody hps
    obtain ⟨fs, fds, hb, hm, _, hc⟩ := newHead_eq hn
    obtain ⟨fs2, fds2, _, _, hb2, hm2, _, hc2⟩ := defaultHead_eq hd
    rw [hbody, hb2] at hb
    injection hb with hb
    subst hb
    rw [hm] at hm2
    injection hm2 with hm2
    subst hm2
    rw [hps] at hc
    simp only [List.map_nil, List.nil_append] at hc
    subst hc
    subst hc2
    refine ⟨rfl, rfl, rfl, ?_⟩
    rw [runCtor_no_params, runCtor_no_params]
  · intro hn hbody args hlen hnd
    obtain ⟨fs, fds, hb, hm, _, hc⟩ := newHead_eq hn
    rw [hbody] at hb
    injection hb with hb
    subst hb
    have : fds = [] := by
      have : matchBody [] = some [] := rfl
      rw [this] at hm
      injection hm with hm
      exact hm.symm
    subst this
    simp only [List.map_nil, List.append_nil] at hc
    subst hc
    have := runCtor_params_and_defaults eval "new" d.generics d.wheres
      (d.params.getD []) [] args hlen hnd
    simpa using this

/-- Witness for C9: the empty-parameter scenario constructor builds the
same instance as the struct_default constructor over the same fields, and
the pass-through scenario constructor forwards its two arguments to its
two fields. -/
theorem degenerate_ctors_witness :
    runCtor docEval ctorANew [] = runCtor docEval ctorA [] ∧
    runCtor docEval ctorPT [Value.natV 7, Value.strV "s"] =
      some [("p", Value.natV 7), ("q", Value.strV "s")] :=
  ⟨((degenerate_ctors docEval declEmptyParams declA sdA ctorANew sdA ctorA).1
      rfl rfl rfl rfl).2.2.2,
   (degenerate_ctors docEval declPassThru declA sdPT ctorPT sdA ctorA).2
      rfl rfl [Value.natV 7, Value.strV "s"] rfl (by decide)⟩

/-! ### Claim C10 -/

/-- C10: a FieldsWithDefaults declaration with an empty field list is
accepted by both transformers and, unlike the unit shape, each still
emits exactly one constructor function: a zero-argument constructor
returning the empty instance. -/
theorem empty_fields_decl_generates_ctor (eval : String → Value) (d : Decl)
    (hb : d.body = some []) (hp : d.params = none) (hw : d.wheres = []) :
    struct_default [d] =
      some [Artifact.structDef ⟨d.attrs, d.vis, d.name, d.generics, [], [], false⟩,
        Artifact.fnDef ⟨"", "default", d.generics, [], [], []⟩] ∧
    struct_new [d] =
      some [Artifact.structDef ⟨d.attrs, d.vis, d.name, d.generics, [], [], false⟩,
        Artifact.fnDef ⟨"", "new", d.generics, [], [], []⟩] ∧
    fnCount [Artifact.structDef ⟨d.attrs, d.vis, d.name, d.generics, [], [], false⟩,
      Artifact.fnDef ⟨"", "default", d.generics, [], [], []⟩] = 1 ∧
    runCtor eval ⟨"", "default", d.generics, [], [], []⟩ [] = some [] ∧
    runCtor eval ⟨"", "new", d.generics, [], [], []⟩ [] = some [] := by
  obtain ⟨attrs, vis, name, gens, params, wheres, body⟩ := d
  simp only at hb hp hw
  subst hb
  subst hp
  subst hw
  refine ⟨?_, ?_, rfl, rfl, rfl⟩
  · unfold struct_default
    rw [if_neg (by simp [isBareUnit])]
    rfl
  · unfold struct_new
    rw [if_neg (by simp [isBareUnit])]
    rfl

/-- Witness for C10 at the documented declaration struct B with an empty
body: both transformers accept it and emit a constructor returning the
empty instance. -/
theorem empty_fields_decl_generates_ctor_witness :
    struct_default [declEmptyB] =
      some [Artifact.structDef ⟨[], "", "B", [], [], [], false⟩,
        Artifact.fnDef ⟨"", "default", [], [], [], []⟩] ∧
    struct_new [declEmptyB] =
      some [Artifact.structDef ⟨[], "", "B", [], [], [], false⟩,
        Artifact.fnDef ⟨"", "new", [], [], [], []⟩] ∧
    fnCount [Artifact.structDef ⟨[], "", "B", [], [], [], false⟩,
      Artifact.fnDef ⟨"", "default", [], [], [], []⟩] = 1 ∧
    runCtor docEval ⟨"", "default", [], [], [], []⟩ [] = some [] ∧
    runCtor docEval ⟨"", "new", [], [], [], []⟩ [] = some [] :=
  empty_fields_decl_generates_ctor docEval declEmptyB rfl rfl rfl
